import Mathlib

/-!
Verification development for the account-management HTTP client
(`accounts_client.go`).  The client's operations (`Fetch`, `Create`,
`Delete`) are embedded shallowly: the substitutable transport primitives
(HTTP GET, HTTP POST, request construction, request execution, body
reading, serialization) become oracle functions stored in the client
record, machine effects become explicit `Except` results, and each
operation additionally records the list of transport primitives it
invoked, so that "no network call is made" claims become statements
about that trace.
-/

/-- Result of a Go `error` value: modelled as a message-carrying record. -/
structure GoError where
  message : String
deriving DecidableEq, Repr

/-- Go `[]byte` payloads, modelled as strings of bytes. -/
abbrev Bytes := String

/-- The `HTTPError` struct of the repository: optional underlying cause,
human-readable message, HTTP status code (Go zero value 0 when no
response status applies) and optional raw response payload
(Go `*[]byte`, `nil` when absent).  Field defaults mirror Go zero values. -/
structure HTTPError where
  cause : Option GoError := none
  message : String := ""
  statusCode : Int := 0
  responsePayload : Option Bytes := none
deriving DecidableEq, Repr

/-- An HTTP response as the client observes it: status code, the
`Content-Type` header value (`""` when the header is absent, as with
Go's `Header.Get`) and the body stream, modelled by the bytes it
delivers to the injected reader. -/
structure HttpResponse where
  statusCode : Int
  contentTypeHeader : String
  body : Bytes
deriving DecidableEq, Repr

/-- An HTTP request as built by the request-construction primitive. -/
structure HttpRequest where
  method : String
  url : String
deriving DecidableEq, Repr

/-- Modelled from the spec: the domain entity's nested attributes
structure of optional scalar and list fields (spec sections 3 and 6);
the Go struct declaration is not part of the embedded sources.  Every
field is "present or absent", since absence and zero value are
semantically distinct in the wire format. -/
structure AccountAttributes where
  accountClassification : Option String := none
  accountMatchingOptOut : Option Bool := none
  alternativeNames : Option (List String) := none
  bankID : Option String := none
  bankIDCode : Option String := none
  bic : Option String := none
  country : Option String := none
  baseCurrency : Option String := none
  iban : Option String := none
  accountNumber : Option String := none
  customerID : Option String := none
  jointAccount : Option Bool := none
  status : Option String := none
  switched : Option Bool := none
  secondaryIdentification : Option String := none
  name : Option (List String) := none
deriving DecidableEq, Repr

/-- Modelled from the spec: the domain entity (`AccountData`): identifier,
owner identifier, type tag, nullable version and optional attributes. -/
structure AccountData where
  id : String := ""
  organisationID : String := ""
  type : String := ""
  version : Option Int := none
  attributes : Option AccountAttributes := none
deriving DecidableEq, Repr

/-- The wire envelope `Envelope[AccountData]`: a `data` field holding an
optional resource (Go `Data *AccountData`). -/
structure Envelope where
  data : Option AccountData := none
deriving DecidableEq, Repr

/-- Trace entries recording which transport primitive an operation
invoked, with the arguments handed to it. -/
inductive TransportEvent where
  | getCall (path : String)
  | postCall (url contentTypeArg : String) (body : Bytes)
  | newRequestCall (method path : String)
  | doRequestCall
  | readCall
deriving DecidableEq, Repr

/-- Outcome of `Fetch`/`Create`: the two returned pointers (account data
and HTTP error, each possibly nil) plus the trace of transport
primitives invoked. -/
structure AccountOpOutcome where
  account : Option AccountData
  httpError : Option HTTPError
  calls : List TransportEvent
deriving DecidableEq, Repr

/-- Outcome of `Delete`: the returned error pointer plus the trace of
transport primitives invoked. -/
structure DeleteOutcome where
  httpError : Option HTTPError
  calls : List TransportEvent
deriving DecidableEq, Repr

/-- The `httpAccountsClientImpl` record: the configured host and the six
substitutable transport primitives, plus the JSON-deserialization seam
(`json.Unmarshal` into an envelope), which is a fixed external
collaborator in the source and is therefore modelled as an oracle of
the client record. -/
structure HttpAccountsClientImpl where
  host : String
  readInput : Bytes → Except GoError Bytes
  doHttpGet : String → Except GoError HttpResponse
  doHttpPost : String → String → Bytes → Except GoError HttpResponse
  createNewRequest : String → String → Except GoError HttpRequest
  doRequest : HttpRequest → Except GoError HttpResponse
  serialize : Envelope → Except GoError Bytes
  unmarshalEnvelope : Bytes → Except GoError Envelope

/-- The constant `servicePath` of the source. -/
def servicePath : String := "v1/organisation/accounts"

/-- The constant `jsonContentType` of the source. -/
def jsonContentType : String := "application/json"

/-- The constant `contentType` of the source (the header name). -/
def contentTypeName : String := "Content-Type"

/-- Character-list core of the prefix test. -/
def charsStartWith : List Char → List Char → Bool
  | _, [] => true
  | [], _ :: _ => false
  | c :: cs, p :: ps => c == p && charsStartWith cs ps

/-- Go's strings.HasPrefix: whether `s` begins with `pre`, at the
character level. -/
def strStartsWith (s pre : String) : Bool := charsStartWith s.data pre.data

/-- Character class of hexadecimal digits. -/
def isHexDigit (c : Char) : Bool :=
  c.isDigit || ('a' ≤ c && c ≤ 'f') || ('A' ≤ c && c ≤ 'F')

/-- The source's `isValidUUID`, which delegates to the external uuid
library's parser.  Modelled from the spec: "id must be syntactically a
valid UUID", here the canonical 8-4-4-4-12 hexadecimal form with
hyphens at positions 8, 13, 18 and 23. -/
def isValidUUID (u : String) : Bool :=
  let cs := u.data
  cs.length == 36 &&
    (List.range 36).all (fun i =>
      if i == 8 || i == 13 || i == 18 || i == 23 then
        cs.getD i ' ' == '-'
      else
        isHexDigit (cs.getD i ' '))

/-- The source's `readPayload`: feed the response body to the injected
reader; wrap a reader failure as the body-processing `HTTPError`. -/
def HttpAccountsClientImpl.readPayload (hac : HttpAccountsClientImpl)
    (resp : HttpResponse) : Except HTTPError Bytes :=
  match hac.readInput resp.body with
  | .error err => .error { cause := some err, message := "Error processing response body" }
  | .ok responseData => .ok responseData

/-- The source's `unexpectedStatusCode` error builder. -/
def unexpectedStatusCode (expected actual : Int) (operation : String)
    (respPayload : Bytes) : HTTPError :=
  { statusCode := actual
    message := "Unexpected response code returned for " ++ operation ++
      " operation, expected " ++ toString expected ++ ", got " ++ toString actual
    responsePayload := some respPayload }

/-- The source's `deserializeToResponseEnvelope`: run the JSON
deserialization seam; wrap a parse failure as an `HTTPError` carrying
the raw payload. -/
def deserializeToResponseEnvelope (hac : HttpAccountsClientImpl)
    (responseData : Bytes) : Except HTTPError Envelope :=
  match hac.unmarshalEnvelope responseData with
  | .error err =>
      .error { cause := some err, message := "Error deserializing json",
               responsePayload := some responseData }
  | .ok env => .ok env

/-- The source's `accountDataOrError`: turn a parsed envelope into the
either-or pair of account data and error. -/
def accountDataOrError (responseEnvelope : Envelope) (responseData : Bytes) :
    Option AccountData × Option HTTPError :=
  match responseEnvelope.data with
  | none =>
      (none, some { message := "Got an empty object after deserialization, json payload was an empty object?"
                    responsePayload := some responseData })
  | some d => (some d, none)

/-- The source's `Fetch`: uuid gate, GET, body read, status check (200),
content-type check, deserialization, envelope unpacking; together with
the trace of invoked transport primitives. -/
def HttpAccountsClientImpl.Fetch (hac : HttpAccountsClientImpl) (id : String) :
    AccountOpOutcome :=
  if ! isValidUUID id then
    { account := none, httpError := some { message := "id must be a valid uuid" }, calls := [] }
  else
    let path := hac.host ++ "/" ++ servicePath ++ "/" ++ id
    match hac.doHttpGet path with
    | .error err =>
        { account := none
          httpError := some { cause := some err, message := "Error placing a Get Http request" }
          calls := [.getCall path] }
    | .ok resp =>
        match hac.readPayload resp with
        | .error httpErr =>
            { account := none, httpError := some httpErr, calls := [.getCall path, .readCall] }
        | .ok responseData =>
            if resp.statusCode ≠ 200 then
              { account := none
                httpError := some (unexpectedStatusCode 200 resp.statusCode "Get" responseData)
                calls := [.getCall path, .readCall] }
            else
              let cType := resp.contentTypeHeader
              if ! strStartsWith cType jsonContentType then
                { account := none
                  httpError := some
                    { statusCode := resp.statusCode
                      message := "Unexpected  " ++ contentTypeName ++ ", expecting " ++
                        jsonContentType ++ ", got " ++ cType
                      responsePayload := some responseData }
                  calls := [.getCall path, .readCall] }
              else
                match deserializeToResponseEnvelope hac responseData with
                | .error httpErr =>
                    { account := none, httpError := some httpErr
                      calls := [.getCall path, .readCall] }
                | .ok responseEnvelope =>
                    let r := accountDataOrError responseEnvelope responseData
                    { account := r.1, httpError := r.2, calls := [.getCall path, .readCall] }

/-- The source's `Create`: envelope construction, serialization, POST,
body read, status check (201), deserialization, envelope unpacking
(note: no content-type check); together with the invocation trace.  The
`account` argument is the Go `*AccountData`, hence optional. -/
def HttpAccountsClientImpl.Create (hac : HttpAccountsClientImpl)
    (account : Option AccountData) : AccountOpOutcome :=
  let requestEnvelope : Envelope := { data := account }
  match hac.serialize requestEnvelope with
  | .error err =>
      { account := none
        httpError := some { cause := some err, message := "Unable to serialize payload" }
        calls := [] }
  | .ok requestData =>
      let url := hac.host ++ "/" ++ servicePath
      match hac.doHttpPost url jsonContentType requestData with
      | .error err =>
          { account := none
            httpError := some { cause := some err, message := "Error placing a Post Http request" }
            calls := [.postCall url jsonContentType requestData] }
      | .ok resp =>
          match hac.readPayload resp with
          | .error httpErr =>
              { account := none, httpError := some httpErr
                calls := [.postCall url jsonContentType requestData, .readCall] }
          | .ok responseData =>
              if resp.statusCode ≠ 201 then
                { account := none
                  httpError := some (unexpectedStatusCode 201 resp.statusCode "Post" responseData)
                  calls := [.postCall url jsonContentType requestData, .readCall] }
              else
                match deserializeToResponseEnvelope hac responseData with
                | .error httpErr =>
                    { account := none, httpError := some httpErr
                      calls := [.postCall url jsonContentType requestData, .readCall] }
                | .ok responseEnvelope =>
                    let r := accountDataOrError responseEnvelope responseData
                    { account := r.1, httpError := r.2
                      calls := [.postCall url jsonContentType requestData, .readCall] }

/-- The source's `Delete`: uuid gate, request construction, execution,
status check (204; body read and payload capture only on the mismatch
branch); together with the invocation trace. -/
def HttpAccountsClientImpl.Delete (hac : HttpAccountsClientImpl) (id : String)
    (version : Int) : DeleteOutcome :=
  if ! isValidUUID id then
    { httpError := some { message := "id must be a valid uuid" }, calls := [] }
  else
    let fullPath := hac.host ++ "/" ++ servicePath ++ "/" ++ id ++ "?version=" ++ toString version
    match hac.createNewRequest "DELETE" fullPath with
    | .error err =>
        { httpError := some { cause := some err, message := "Error preparing Delete Http request" }
          calls := [.newRequestCall "DELETE" fullPath] }
    | .ok req =>
        match hac.doRequest req with
        | .error err =>
            { httpError := some { cause := some err, message := "Error placing Delete Http request" }
              calls := [.newRequestCall "DELETE" fullPath, .doRequestCall] }
        | .ok resp =>
            if resp.statusCode ≠ 204 then
              match hac.readPayload resp with
              | .error httpErr =>
                  { httpError := some httpErr
                    calls := [.newRequestCall "DELETE" fullPath, .doRequestCall, .readCall] }
              | .ok responseData =>
                  { httpError := some (unexpectedStatusCode 204 resp.statusCode "Delete" responseData)
                    calls := [.newRequestCall "DELETE" fullPath, .doRequestCall, .readCall] }
            else
              { httpError := none, calls := [.newRequestCall "DELETE" fullPath, .doRequestCall] }

/-- A concrete client record used to instantiate witness statements. -/
def oracleClient : HttpAccountsClientImpl :=
  { host := "http://localhost:8080"
    readInput := fun b => .ok b
    doHttpGet := fun _ => .error { message := "no network" }
    doHttpPost := fun _ _ _ => .error { message := "no network" }
    createNewRequest := fun m u => .ok { method := m, url := u }
    doRequest := fun _ => .error { message := "no network" }
    serialize := fun _ => .ok ""
    unmarshalEnvelope := fun _ => .error { message := "unexpected end of JSON input" } }

example : isValidUUID "blah" = false := by decide
example : isValidUUID "ad27e265-9605-4b4b-a0e5-3003ea9cc419" = true := by decide
example : (oracleClient.Fetch "blah").calls = [] := by decide

/-- C1: for every execution of `Fetch` and of `Create`, exactly one of the
two returned pointers (account data, HTTP error) is non-nil: either the
account is nil and the error non-nil, or the account is non-nil and the
error nil. -/
theorem fetch_create_return_exactly_one (hac : HttpAccountsClientImpl)
    (id : String) (account : Option AccountData) :
    (((hac.Fetch id).account = none ∧ ((hac.Fetch id).httpError).isSome = true) ∨
      (((hac.Fetch id).account).isSome = true ∧ (hac.Fetch id).httpError = none)) ∧
    (((hac.Create account).account = none ∧ ((hac.Create account).httpError).isSome = true) ∨
      (((hac.Create account).account).isSome = true ∧ (hac.Create account).httpError = none)) := by
  constructor
  · unfold HttpAccountsClientImpl.Fetch accountDataOrError
    dsimp only
    repeat' split
    all_goals first | (left; exact ⟨rfl, rfl⟩) | (right; exact ⟨rfl, rfl⟩)
  · unfold HttpAccountsClientImpl.Create accountDataOrError
    dsimp only
    repeat' split
    all_goals first | (left; exact ⟨rfl, rfl⟩) | (right; exact ⟨rfl, rfl⟩)

/-- C2: for every id that is not a syntactically valid UUID, `Fetch`
returns a nil account together with the error "id must be a valid uuid"
(no cause, status 0, no payload), `Delete` returns that same error, and
neither operation invokes any transport primitive (the call trace is
empty). -/
theorem fetch_delete_invalid_uuid_no_network (hac : HttpAccountsClientImpl)
    (id : String) (version : Int) (h : isValidUUID id = false) :
    hac.Fetch id =
      { account := none
        httpError := some { cause := none, message := "id must be a valid uuid",
                            statusCode := 0, responsePayload := none }
        calls := [] } ∧
    hac.Delete id version =
      { httpError := some { cause := none, message := "id must be a valid uuid",
                            statusCode := 0, responsePayload := none }
        calls := [] } := by
  unfold HttpAccountsClientImpl.Fetch HttpAccountsClientImpl.Delete
  rw [h]
  simp

/-- C2 witness: the concrete non-UUID id "blah" with a concrete client. -/
theorem fetch_delete_invalid_uuid_no_network_witness :
    isValidUUID "blah" = false ∧
    oracleClient.Fetch "blah" =
      { account := none
        httpError := some { cause := none, message := "id must be a valid uuid",
                            statusCode := 0, responsePayload := none }
        calls := [] } ∧
    oracleClient.Delete "blah" 7 =
      { httpError := some { cause := none, message := "id must be a valid uuid",
                            statusCode := 0, responsePayload := none }
        calls := [] } := by
  refine ⟨by decide, ?_, ?_⟩
  · exact (fetch_delete_invalid_uuid_no_network oracleClient "blah" 7 (by decide)).1
  · exact (fetch_delete_invalid_uuid_no_network oracleClient "blah" 7 (by decide)).2

/-- A valid account identifier used by witness statements. -/
def witnessId : String := "ad27e265-9605-4b4b-a0e5-3003ea9cc419"

/-- A client whose injected body reader always fails, over a 404
response: used to exercise the body-read-priority branch. -/
def bodyFailClient : HttpAccountsClientImpl :=
  { oracleClient with
    readInput := fun _ => .error { message := "read failed" }
    doHttpGet := fun _ => .ok { statusCode := 404, contentTypeHeader := "", body := "ignored" }
    doHttpPost := fun _ _ _ => .ok { statusCode := 404, contentTypeHeader := "", body := "ignored" }
    serialize := fun _ => .ok "null" }

/-- C3: for `Fetch` and `Create`, whenever a response was received and the
injected body reader fails, the operation returns the body-read error
(message "Error processing response body", cause the reader's error,
status code 0, no payload), for every response status code: the
body-read check precedes the status-code check. -/
theorem fetch_create_body_read_error_priority (hac : HttpAccountsClientImpl)
    (id : String) (account : Option AccountData) (resp : HttpResponse)
    (e : GoError) (d : Bytes)
    (hread : hac.readInput resp.body = .error e) :
    (isValidUUID id = true →
      hac.doHttpGet (hac.host ++ "/" ++ servicePath ++ "/" ++ id) = .ok resp →
      hac.Fetch id =
        { account := none
          httpError := some { cause := some e, message := "Error processing response body",
                              statusCode := 0, responsePayload := none }
          calls := [.getCall (hac.host ++ "/" ++ servicePath ++ "/" ++ id), .readCall] }) ∧
    (hac.serialize { data := account } = .ok d →
      hac.doHttpPost (hac.host ++ "/" ++ servicePath) jsonContentType d = .ok resp →
      hac.Create account =
        { account := none
          httpError := some { cause := some e, message := "Error processing response body",
                              statusCode := 0, responsePayload := none }
          calls := [.postCall (hac.host ++ "/" ++ servicePath) jsonContentType d, .readCall] }) := by
  constructor
  · intro hu hget
    simp [HttpAccountsClientImpl.Fetch, HttpAccountsClientImpl.readPayload, hu, hget, hread]
  · intro hser hpost
    simp [HttpAccountsClientImpl.Create, HttpAccountsClientImpl.readPayload, hser, hpost, hread]

/-- C3 witness: a concrete client whose reader fails against a concrete
404 response, for both operations. -/
theorem fetch_create_body_read_error_priority_witness :
    bodyFailClient.readInput "ignored" = .error { message := "read failed" } ∧
    isValidUUID witnessId = true ∧
    bodyFailClient.Fetch witnessId =
      { account := none
        httpError := some { cause := some { message := "read failed" },
                            message := "Error processing response body",
                            statusCode := 0, responsePayload := none }
        calls := [.getCall (bodyFailClient.host ++ "/" ++ servicePath ++ "/" ++ witnessId),
                  .readCall] } ∧
    bodyFailClient.Create none =
      { account := none
        httpError := some { cause := some { message := "read failed" },
                            message := "Error processing response body",
                            statusCode := 0, responsePayload := none }
        calls := [.postCall (bodyFailClient.host ++ "/" ++ servicePath) jsonContentType "null",
                  .readCall] } := by
  have h := fetch_create_body_read_error_priority bodyFailClient witnessId none
    { statusCode := 404, contentTypeHeader := "", body := "ignored" }
    { message := "read failed" } "null" rfl
  exact ⟨rfl, by decide, h.1 (by decide) rfl, h.2 rfl rfl⟩

/-- A client answering GET/POST with a 400 response with an empty body,
and DELETE with a 404 response with an empty body. -/
def status400Client : HttpAccountsClientImpl :=
  { oracleClient with
    doHttpGet := fun _ => .ok { statusCode := 400, contentTypeHeader := "", body := "" }
    doHttpPost := fun _ _ _ => .ok { statusCode := 400, contentTypeHeader := "", body := "" }
    doRequest := fun _ => .ok { statusCode := 404, contentTypeHeader := "", body := "" }
    serialize := fun _ => .ok "null" }

/-- C4: whenever the response status differs from the operation's
expected code (200 fetch, 201 create, 204 delete) and the body was read
successfully, the returned error carries the actual status code, the
message "Unexpected response code returned for <Op> operation, expected
<expected>, got <actual>" with Op = Get/Post/Delete, and the read bytes
as payload (possibly empty, never absent). -/
theorem unexpected_status_error_shape (hac : HttpAccountsClientImpl)
    (id : String) (account : Option AccountData) (version : Int)
    (resp : HttpResponse) (d : Bytes)
    (hread : hac.readInput resp.body = .ok d) :
    (isValidUUID id = true →
      hac.doHttpGet (hac.host ++ "/" ++ servicePath ++ "/" ++ id) = .ok resp →
      resp.statusCode ≠ 200 →
      hac.Fetch id =
        { account := none
          httpError := some
            { cause := none
              message := "Unexpected response code returned for Get operation, expected 200, got "
                ++ toString resp.statusCode
              statusCode := resp.statusCode
              responsePayload := some d }
          calls := [.getCall (hac.host ++ "/" ++ servicePath ++ "/" ++ id), .readCall] }) ∧
    (∀ b : Bytes, hac.serialize { data := account } = .ok b →
      hac.doHttpPost (hac.host ++ "/" ++ servicePath) jsonContentType b = .ok resp →
      resp.statusCode ≠ 201 →
      hac.Create account =
        { account := none
          httpError := some
            { cause := none
              message := "Unexpected response code returned for Post operation, expected 201, got "
                ++ toString resp.statusCode
              statusCode := resp.statusCode
              responsePayload := some d }
          calls := [.postCall (hac.host ++ "/" ++ servicePath) jsonContentType b, .readCall] }) ∧
    (∀ req : HttpRequest, isValidUUID id = true →
      hac.createNewRequest "DELETE"
          (hac.host ++ "/" ++ servicePath ++ "/" ++ id ++ "?version=" ++ toString version) = .ok req →
      hac.doRequest req = .ok resp →
      resp.statusCode ≠ 204 →
      hac.Delete id version =
        { httpError := some
            { cause := none
              message := "Unexpected response code returned for Delete operation, expected 204, got "
                ++ toString resp.statusCode
              statusCode := resp.statusCode
              responsePayload := some d }
          calls := [.newRequestCall "DELETE"
              (hac.host ++ "/" ++ servicePath ++ "/" ++ id ++ "?version=" ++ toString version),
            .doRequestCall, .readCall] }) := by
  refine ⟨?_, ?_, ?_⟩
  · intro hu hget hst
    simp [HttpAccountsClientImpl.Fetch, HttpAccountsClientImpl.readPayload, unexpectedStatusCode,
      hu, hget, hread, hst, show toString (200 : Int) = "200" from rfl]
  · intro b hser hpost hst
    simp [HttpAccountsClientImpl.Create, HttpAccountsClientImpl.readPayload, unexpectedStatusCode,
      hser, hpost, hread, hst, show toString (201 : Int) = "201" from rfl]
  · intro req hu hreq hdo hst
    simp [HttpAccountsClientImpl.Delete, HttpAccountsClientImpl.readPayload, unexpectedStatusCode,
      hu, hreq, hdo, hread, hst, show toString (204 : Int) = "204" from rfl]

/-- C4 witness: the spec's scenario — fetch against a server returning
400 with an empty body yields status 400, the exact message, and the
empty (but present) payload. -/
theorem unexpected_status_error_shape_witness :
    status400Client.Fetch witnessId =
      { account := none
        httpError := some
          { cause := none
            message := "Unexpected response code returned for Get operation, expected 200, got 400"
            statusCode := 400
            responsePayload := some "" }
        calls := [.getCall (status400Client.host ++ "/" ++ servicePath ++ "/" ++ witnessId),
                  .readCall] } := by
  have h := (unexpected_status_error_shape status400Client witnessId none 0
    { statusCode := 400, contentTypeHeader := "", body := "" } "" rfl).1
    (by decide) rfl (by decide)
  simpa using h

/-- Replace the Content-Type header of a response, leaving the status
code and the body untouched. -/
def mapHeader (f : String → String) (resp : HttpResponse) : HttpResponse :=
  { resp with contentTypeHeader := f resp.contentTypeHeader }

/-- Transform a client so that every response delivered by its POST
primitive has its Content-Type header rewritten by `f`. -/
def withMappedPostHeaders (f : String → String) (hac : HttpAccountsClientImpl) :
    HttpAccountsClientImpl :=
  { hac with doHttpPost := fun u c b => (hac.doHttpPost u c b).map (mapHeader f) }

/-- C5: `Fetch` returns the content-type error (status code of the
response, payload the read body) whenever the status is 200 and the
Content-Type header does not start with "application/json"; `Create`
performs no content-type check at all: its outcome is invariant under
arbitrary rewriting of the response's Content-Type header. -/
theorem fetch_content_type_check_create_none (hac : HttpAccountsClientImpl)
    (id : String) (account : Option AccountData) (resp : HttpResponse) (d : Bytes)
    (f : String → String) :
    (isValidUUID id = true →
      hac.doHttpGet (hac.host ++ "/" ++ servicePath ++ "/" ++ id) = .ok resp →
      hac.readInput resp.body = .ok d →
      resp.statusCode = 200 →
      strStartsWith resp.contentTypeHeader jsonContentType = false →
      hac.Fetch id =
        { account := none
          httpError := some
            { cause := none
              message := "Unexpected  Content-Type, expecting application/json, got "
                ++ resp.contentTypeHeader
              statusCode := resp.statusCode
              responsePayload := some d }
          calls := [.getCall (hac.host ++ "/" ++ servicePath ++ "/" ++ id), .readCall] }) ∧
    (withMappedPostHeaders f hac).Create account = hac.Create account := by
  constructor
  · intro hu hget hread hst hct
    simp only [jsonContentType] at hct
    simp [HttpAccountsClientImpl.Fetch, HttpAccountsClientImpl.readPayload, contentTypeName,
      jsonContentType, hu, hget, hread, hst, hct]
  · unfold withMappedPostHeaders HttpAccountsClientImpl.Create HttpAccountsClientImpl.readPayload
      deserializeToResponseEnvelope
    dsimp only
    rcases hser : hac.serialize { data := account } with e | b
    · simp [hser]
    · simp only [hser]
      rcases hpost : hac.doHttpPost (hac.host ++ "/" ++ servicePath) jsonContentType b
        with e | resp'
      · simp [hpost, Except.map]
      · simp [hpost, Except.map, mapHeader]

/-- A client answering GET with status 200 but an HTML content type. -/
def htmlClient : HttpAccountsClientImpl :=
  { oracleClient with
    doHttpGet := fun _ =>
      .ok { statusCode := 200, contentTypeHeader := "text/html", body := "<html></html>" } }

/-- C5 witness: the spec's scenario — fetch with Content-Type text/html
and status 200 yields the content-type error with the payload set. -/
theorem fetch_content_type_check_create_none_witness :
    htmlClient.Fetch witnessId =
      { account := none
        httpError := some
          { cause := none
            message := "Unexpected  Content-Type, expecting application/json, got text/html"
            statusCode := 200
            responsePayload := some "<html></html>" }
        calls := [.getCall (htmlClient.host ++ "/" ++ servicePath ++ "/" ++ witnessId),
                  .readCall] } := by
  have h := (fetch_content_type_check_create_none htmlClient witnessId none
    { statusCode := 200, contentTypeHeader := "text/html", body := "<html></html>" }
    "<html></html>" id).1 (by decide) rfl rfl rfl (by decide)
  simpa using h

/-- A client whose DELETE round-trip succeeds with status 204. -/
def status204Client : HttpAccountsClientImpl :=
  { oracleClient with
    doRequest := fun _ => .ok { statusCode := 204, contentTypeHeader := "", body := "" } }

/-- C6: whenever request construction and execution succeed and the
response status is 204, `Delete` returns no error and never invokes the
body reader; conversely the body reader is invoked only when the
response status differs from 204. -/
theorem delete_204_no_body_read (hac : HttpAccountsClientImpl) (id : String)
    (version : Int) (req : HttpRequest) (resp : HttpResponse) :
    (isValidUUID id = true →
      hac.createNewRequest "DELETE"
          (hac.host ++ "/" ++ servicePath ++ "/" ++ id ++ "?version=" ++ toString version) =
        .ok req →
      hac.doRequest req = .ok resp →
      resp.statusCode = 204 →
      hac.Delete id version =
        { httpError := none
          calls := [.newRequestCall "DELETE"
              (hac.host ++ "/" ++ servicePath ++ "/" ++ id ++ "?version=" ++ toString version),
            .doRequestCall] }) ∧
    (.readCall ∈ (hac.Delete id version).calls →
      ∃ req' resp',
        hac.createNewRequest "DELETE"
            (hac.host ++ "/" ++ servicePath ++ "/" ++ id ++ "?version=" ++ toString version) =
          .ok req' ∧
        hac.doRequest req' = .ok resp' ∧ resp'.statusCode ≠ 204) := by
  constructor
  · intro hu hreq hdo hst
    simp [HttpAccountsClientImpl.Delete, hu, hreq, hdo, hst]
  · intro hmem
    unfold HttpAccountsClientImpl.Delete at hmem
    dsimp only at hmem
    split at hmem
    · simp at hmem
    · split at hmem
      · simp at hmem
      · rename_i req' hreq
        split at hmem
        · simp at hmem
        · rename_i resp' hdo
          split at hmem
          · rename_i hst
            exact ⟨req', resp', hreq, hdo, hst⟩
          · simp at hmem

/-- C6 witness: the spec's scenario — delete against a server returning
204 yields a null error, with no read event in the trace. -/
theorem delete_204_no_body_read_witness :
    status204Client.Delete witnessId 7 =
      { httpError := none
        calls := [.newRequestCall "DELETE"
            (status204Client.host ++ "/" ++ servicePath ++ "/" ++ witnessId ++ "?version=" ++
              toString (7 : Int)),
          .doRequestCall] } := by
  exact (delete_204_no_body_read status204Client witnessId 7
    { method := "DELETE"
      url := status204Client.host ++ "/" ++ servicePath ++ "/" ++ witnessId ++ "?version=" ++
        toString (7 : Int) }
    { statusCode := 204, contentTypeHeader := "", body := "" }).1 (by decide) rfl rfl rfl

/-- A client answering POST with 201 and the empty JSON object as body,
whose deserialization seam behaves like the JSON parser does on that
body: it succeeds with an envelope holding no data. -/
def emptyObjectClient : HttpAccountsClientImpl :=
  { oracleClient with
    doHttpPost := fun _ _ _ =>
      .ok { statusCode := 201, contentTypeHeader := "application/json", body := "\x7b\x7d" }
    serialize := fun _ => .ok "null"
    unmarshalEnvelope := fun b =>
      if b = "\x7b\x7d" then .ok { data := none } else .error { message := "bad json" } }

/-- C7: for `Fetch` and `Create`, when the status matches, the body is
read and it deserializes to an envelope whose data field is absent, the
operation returns a nil account and the empty-payload error, whose
payload is the raw body and whose cause is nil. -/
theorem empty_envelope_data_error (hac : HttpAccountsClientImpl) (id : String)
    (account : Option AccountData) (resp : HttpResponse) (d : Bytes)
    (hread : hac.readInput resp.body = .ok d)
    (hdes : hac.unmarshalEnvelope d = .ok { data := none }) :
    (isValidUUID id = true →
      hac.doHttpGet (hac.host ++ "/" ++ servicePath ++ "/" ++ id) = .ok resp →
      resp.statusCode = 200 →
      strStartsWith resp.contentTypeHeader jsonContentType = true →
      hac.Fetch id =
        { account := none
          httpError := some
            { cause := none
              message := "Got an empty object after deserialization, json payload was an empty object?"
              statusCode := 0
              responsePayload := some d }
          calls := [.getCall (hac.host ++ "/" ++ servicePath ++ "/" ++ id), .readCall] }) ∧
    (∀ b : Bytes, hac.serialize { data := account } = .ok b →
      hac.doHttpPost (hac.host ++ "/" ++ servicePath) jsonContentType b = .ok resp →
      resp.statusCode = 201 →
      hac.Create account =
        { account := none
          httpError := some
            { cause := none
              message := "Got an empty object after deserialization, json payload was an empty object?"
              statusCode := 0
              responsePayload := some d }
          calls := [.postCall (hac.host ++ "/" ++ servicePath) jsonContentType b, .readCall] }) := by
  constructor
  · intro hu hget hst hct
    simp [HttpAccountsClientImpl.Fetch, HttpAccountsClientImpl.readPayload,
      deserializeToResponseEnvelope, accountDataOrError, hu, hget, hread, hst, hct, hdes]
  · intro b hser hpost hst
    simp [HttpAccountsClientImpl.Create, HttpAccountsClientImpl.readPayload,
      deserializeToResponseEnvelope, accountDataOrError, hser, hpost, hread, hst, hdes]

/-- C7 witness: the spec's scenario — create against a server returning
201 with body the empty JSON object yields the empty-payload error with
that body as payload. -/
theorem empty_envelope_data_error_witness :
    emptyObjectClient.Create none =
      { account := none
        httpError := some
          { cause := none
            message := "Got an empty object after deserialization, json payload was an empty object?"
            statusCode := 0
            responsePayload := some "\x7b\x7d" }
        calls := [.postCall (emptyObjectClient.host ++ "/" ++ servicePath) jsonContentType "null",
                  .readCall] } := by
  exact (empty_envelope_data_error emptyObjectClient witnessId none
    { statusCode := 201, contentTypeHeader := "application/json", body := "\x7b\x7d" }
    "\x7b\x7d" rfl rfl).2 "null" rfl rfl rfl

/-- Shape of every error produced by `readPayload`: it wraps the injected
reader's error with the body-processing message, no status, no payload. -/
theorem readPayload_error_shape (hac : HttpAccountsClientImpl)
    (resp : HttpResponse) (X : HTTPError)
    (h : hac.readPayload resp = .error X) :
    ∃ err, hac.readInput resp.body = .error err ∧
      X = { cause := some err, message := "Error processing response body",
            statusCode := 0, responsePayload := none } := by
  unfold HttpAccountsClientImpl.readPayload at h
  split at h
  · rename_i err hin
    injection h with h2
    exact ⟨err, hin, h2.symm⟩
  · exact Except.noConfusion h

/-- Shape of every error produced by `deserializeToResponseEnvelope`: it
wraps the parser's error with the deserialization message and the raw
payload, no status. -/
theorem deserialize_error_shape (hac : HttpAccountsClientImpl)
    (d : Bytes) (X : HTTPError)
    (h : deserializeToResponseEnvelope hac d = .error X) :
    ∃ err, hac.unmarshalEnvelope d = .error err ∧
      X = { cause := some err, message := "Error deserializing json",
            statusCode := 0, responsePayload := some d } := by
  unfold deserializeToResponseEnvelope at h
  split at h
  · rename_i err hin
    injection h with h2
    exact ⟨err, hin, h2.symm⟩
  · exact Except.noConfusion h

/-- C10: `Create` performs no validation of its input resource: for every
input account (a non-UUID identifier or an all-zero value included) it
never returns an error whose message is "id must be a valid uuid"; the
only failure reachable before the network call is the serialization
failure, and whenever serialization succeeds the POST is issued. -/
theorem create_no_input_validation (hac : HttpAccountsClientImpl)
    (account : Option AccountData) :
    (∀ e : HTTPError, (hac.Create account).httpError = some e →
      e.message ≠ "id must be a valid uuid") ∧
    (∀ e : GoError, hac.serialize { data := account } = .error e →
      hac.Create account =
        { account := none
          httpError := some { cause := some e, message := "Unable to serialize payload",
                              statusCode := 0, responsePayload := none }
          calls := [] }) ∧
    (∀ b : Bytes, hac.serialize { data := account } = .ok b →
      .postCall (hac.host ++ "/" ++ servicePath) jsonContentType b ∈
        (hac.Create account).calls) := by
  refine ⟨?_, ?_, ?_⟩
  · intro e he
    unfold HttpAccountsClientImpl.Create accountDataOrError unexpectedStatusCode at he
    dsimp only at he
    repeat' split at he
    all_goals dsimp only at he
    any_goals exact Option.noConfusion he
    all_goals rw [Option.some.injEq] at he
    all_goals subst he
    any_goals simp
    · obtain ⟨err, -, hX⟩ := readPayload_error_shape _ _ _ (by assumption)
      rw [hX]
      simp
    · intro hcontra
      rw [show toString (201 : Int) = "201" from rfl] at hcontra
      have hlen := congrArg String.length hcontra
      simp only [String.length_append] at hlen
      rw [show ("Unexpected response code returned for Post operation, expected " : String).length
            = 63 from rfl,
        show (", got " : String).length = 6 from rfl,
        show ("201" : String).length = 3 from rfl,
        show ("id must be a valid uuid" : String).length = 23 from rfl] at hlen
      omega
    · obtain ⟨err, -, hX⟩ := deserialize_error_shape _ _ _ (by assumption)
      rw [hX]
      simp
  · intro e hser
    simp [HttpAccountsClientImpl.Create, hser]
  · intro b hser
    unfold HttpAccountsClientImpl.Create HttpAccountsClientImpl.readPayload
      deserializeToResponseEnvelope accountDataOrError at *
    dsimp only
    simp only [hser]
    repeat' split
    all_goals simp

/-- C10 witness: an account whose identifier is not a UUID is still sent:
against the 400-answering client, `Create` issues the POST and the
returned error is the status error, not the uuid-validation error. -/
theorem create_no_input_validation_witness :
    ((status400Client.Create (some { id := "not-a-uuid" })).httpError =
      some { cause := none
             message := "Unexpected response code returned for Post operation, expected 201, got 400"
             statusCode := 400
             responsePayload := some "" }) ∧
    "Unexpected response code returned for Post operation, expected 201, got 400" ≠
      "id must be a valid uuid" ∧
    .postCall (status400Client.host ++ "/" ++ servicePath) jsonContentType "null" ∈
      (status400Client.Create (some { id := "not-a-uuid" })).calls := by
  refine ⟨by decide, ?_, ?_⟩
  · exact (create_no_input_validation status400Client (some { id := "not-a-uuid" })).1
      { cause := none
        message := "Unexpected response code returned for Post operation, expected 201, got 400"
        statusCode := 400
        responsePayload := some "" } (by decide)
  · exact (create_no_input_validation status400Client (some { id := "not-a-uuid" })).2.2
      "null" rfl

/-- Scheme characters after the leading letter: letters, digits, plus,
minus, dot. -/
def isSchemeChar (c : Char) : Bool :=
  c.isAlpha || c.isDigit || c == '+' || c == '-' || c == '.'

/-- The characters of a candidate scheme: those before the first colon,
if any colon occurs. -/
def schemeChars : List Char → Option (List Char)
  | [] => none
  | c :: rest => if c = ':' then some [] else (schemeChars rest).map (c :: ·)

/-- Whether the string begins with a syntactically valid URI scheme
followed by a colon: a letter, then scheme characters. -/
def hasValidScheme (s : String) : Bool :=
  match schemeChars s.data with
  | none => false
  | some [] => false
  | some (c :: cs) => c.isAlpha && cs.all isSchemeChar

/-- Whether the string contains an ASCII control character (below 0x20,
or 0x7f), which the URL parser rejects outright. -/
def containsCtlChar (s : String) : Bool :=
  s.data.any (fun c => c.toNat < 0x20 || c.toNat == 0x7f)

/-- Modelled from the external networking stack: acceptance of the
request-URI parse used by `validateUrl`, which interprets its input as
an absolute URI or an absolute (rooted) path: it rejects empty strings
and control characters, accepts "*", and otherwise requires a valid
scheme or a leading slash.  Finer failure modes of the deeper parse
(invalid percent escapes, malformed ports) are not modelled. -/
def parseRequestUriOk (s : String) : Bool :=
  if s = "" then false
  else if containsCtlChar s then false
  else if s = "*" then true
  else if hasValidScheme s then true
  else strStartsWith s "/"

/-- Follows the spec's words: a "well-formed absolute URL" is a URL with
a valid scheme (and no control characters); a rooted path such as
"/abc" is not an absolute URL. -/
def isWellFormedAbsoluteUrl (s : String) : Bool :=
  hasValidScheme s && ! containsCtlChar s

/-- The source's `validateUrl`: reject exactly when the request-URI parse
fails, with the message "invalid URL provided". -/
def validateUrl (baseUrl : String) : Option GoError :=
  if parseRequestUriOk baseUrl then none else some { message := "invalid URL provided" }

/-- A constructed client handle: `MakeClient` validates the base URL at
construction time and stores it as the host; the default transport
primitives it installs come from the real networking stack and are
outside the model. -/
structure ClientHandle where
  host : String
deriving DecidableEq, Repr

/-- The source's `MakeClient`: validate the base URL, then construct the
client holding it. -/
def MakeClient (baseUrl : String) : Except GoError ClientHandle :=
  match validateUrl baseUrl with
  | some err => .error err
  | none => .ok { host := baseUrl }

/-- C8 counterexample: the rooted path "/abc" is not a well-formed
absolute URL, yet client construction succeeds on it — construction
does not fail exactly on non-absolute-URL inputs. -/
theorem makeclient_absolute_url_counterexample :
    isWellFormedAbsoluteUrl "/abc" = false ∧
    MakeClient "/abc" = .ok { host := "/abc" } := by
  exact ⟨by decide, rfl⟩

/-- C8 (amended): `MakeClient` returns no client and the error "invalid
URL provided" exactly when the base URL fails request-URI validation
(neither an absolute URL with a valid scheme, nor a rooted path, nor
"*"), and otherwise returns a client holding that base URL with no
error; in particular every well-formed absolute URL yields a client.
The validation happens at construction time. -/
theorem makeclient_validates_at_construction (baseUrl : String) :
    (parseRequestUriOk baseUrl = false →
      MakeClient baseUrl = .error { message := "invalid URL provided" }) ∧
    (parseRequestUriOk baseUrl = true →
      MakeClient baseUrl = .ok { host := baseUrl }) ∧
    (isWellFormedAbsoluteUrl baseUrl = true →
      MakeClient baseUrl = .ok { host := baseUrl }) := by
  refine ⟨?_, ?_, ?_⟩
  · intro h
    simp [MakeClient, validateUrl, h]
  · intro h
    simp [MakeClient, validateUrl, h]
  · intro h
    rw [isWellFormedAbsoluteUrl, Bool.and_eq_true] at h
    obtain ⟨hs, hc⟩ := h
    rw [Bool.not_eq_true'] at hc
    have hne : baseUrl ≠ "" := by
      intro h0
      rw [h0] at hs
      exact absurd hs (by decide)
    have hok : parseRequestUriOk baseUrl = true := by
      unfold parseRequestUriOk
      rw [if_neg hne, if_neg (by rw [hc]; exact Bool.false_ne_true)]
      by_cases hstar : baseUrl = "*"
      · rw [if_pos hstar]
      · rw [if_neg hstar, if_pos hs]
    simp [MakeClient, validateUrl, hok]

/-- C8 witness: "boom" (no scheme, not rooted) is rejected with the
exact message; the well-formed absolute URL "http://localhost:8080" is
accepted. -/
theorem makeclient_validates_at_construction_witness :
    parseRequestUriOk "boom" = false ∧
    MakeClient "boom" = .error { message := "invalid URL provided" } ∧
    isWellFormedAbsoluteUrl "http://localhost:8080" = true ∧
    MakeClient "http://localhost:8080" = .ok { host := "http://localhost:8080" } := by
  refine ⟨by decide, ?_, by decide, ?_⟩
  · exact (makeclient_validates_at_construction "boom").1 (by decide)
  · exact (makeclient_validates_at_construction "http://localhost:8080").2.2 (by decide)

/-- Modelled from the spec: JSON values as exchanged on the wire, with
objects as key-indexed partial maps — a key bound to nothing is an
absent member, which is distinct from a member bound to null. -/
inductive JVal where
  | null
  | str (s : String)
  | num (i : Int)
  | bool (b : Bool)
  | arr (elems : List JVal)
  | obj (fields : String → Option JVal)

/-- Encode a list of strings as a JSON array. -/
def encStrList (l : List String) : JVal := .arr (l.map .str)

/-- Modelled from the spec: the default serializer's rendering of the
attributes structure under its wire field names — optional fields are
emitted only when present (absent, not null, not zero-valued). -/
def AccountAttributes.encode (a : AccountAttributes) : String → Option JVal := fun k =>
  if k = "account_classification" then a.accountClassification.map .str
  else if k = "account_matching_opt_out" then a.accountMatchingOptOut.map .bool
  else if k = "alternative_names" then a.alternativeNames.map encStrList
  else if k = "bank_id" then a.bankID.map .str
  else if k = "bank_id_code" then a.bankIDCode.map .str
  else if k = "bic" then a.bic.map .str
  else if k = "country" then a.country.map .str
  else if k = "base_currency" then a.baseCurrency.map .str
  else if k = "iban" then a.iban.map .str
  else if k = "account_number" then a.accountNumber.map .str
  else if k = "customer_id" then a.customerID.map .str
  else if k = "joint_account" then a.jointAccount.map .bool
  else if k = "status" then a.status.map .str
  else if k = "switched" then a.switched.map .bool
  else if k = "secondary_identification" then a.secondaryIdentification.map .str
  else if k = "name" then a.name.map encStrList
  else none

/-- Decode an optional string member: absent and null map to absent, a
string maps to present, anything else is a decode failure. -/
def getOptStr : Option JVal → Option (Option String)
  | none => some none
  | some .null => some none
  | some (.str s) => some (some s)
  | some _ => none

/-- Decode an optional boolean member. -/
def getOptBool : Option JVal → Option (Option Bool)
  | none => some none
  | some .null => some none
  | some (.bool b) => some (some b)
  | some _ => none

/-- Decode an optional integer member. -/
def getOptInt : Option JVal → Option (Option Int)
  | none => some none
  | some .null => some none
  | some (.num i) => some (some i)
  | some _ => none

/-- Decode a JSON array of strings. -/
def decStrList : List JVal → Option (List String)
  | [] => some []
  | .str s :: rest => (decStrList rest).map (s :: ·)
  | _ => none

/-- Decode an optional string-list member. -/
def getOptStrList : Option JVal → Option (Option (List String))
  | none => some none
  | some .null => some none
  | some (.arr l) => (decStrList l).map some
  | some _ => none

/-- Decode a required string member: absent and null map to the zero
value (the empty string), as the deserializer leaves such fields at
their zero value. -/
def getReqStr : Option JVal → Option String
  | none => some ""
  | some .null => some ""
  | some (.str s) => some s
  | some _ => none

/-- Modelled from the spec: the deserializer's reading of the attributes
structure — optional fields absent from the JSON map to absent, not to
a zero value. -/
def AccountAttributes.decode (o : String → Option JVal) : Option AccountAttributes := do
  let accountClassification ← getOptStr (o "account_classification")
  let accountMatchingOptOut ← getOptBool (o "account_matching_opt_out")
  let alternativeNames ← getOptStrList (o "alternative_names")
  let bankID ← getOptStr (o "bank_id")
  let bankIDCode ← getOptStr (o "bank_id_code")
  let bic ← getOptStr (o "bic")
  let country ← getOptStr (o "country")
  let baseCurrency ← getOptStr (o "base_currency")
  let iban ← getOptStr (o "iban")
  let accountNumber ← getOptStr (o "account_number")
  let customerID ← getOptStr (o "customer_id")
  let jointAccount ← getOptBool (o "joint_account")
  let status ← getOptStr (o "status")
  let switched ← getOptBool (o "switched")
  let secondaryIdentification ← getOptStr (o "secondary_identification")
  let name ← getOptStrList (o "name")
  pure { accountClassification, accountMatchingOptOut, alternativeNames, bankID, bankIDCode,
         bic, country, baseCurrency, iban, accountNumber, customerID, jointAccount, status,
         switched, secondaryIdentification, name }

/-- Modelled from the spec: the serializer's rendering of a resource. -/
def AccountData.encode (a : AccountData) : String → Option JVal := fun k =>
  if k = "id" then some (.str a.id)
  else if k = "organisation_id" then some (.str a.organisationID)
  else if k = "type" then some (.str a.type)
  else if k = "version" then a.version.map .num
  else if k = "attributes" then a.attributes.map (fun attrs => .obj attrs.encode)
  else none

/-- Decode the optional nested attributes object. -/
def getOptAttributes : Option JVal → Option (Option AccountAttributes)
  | none => some none
  | some .null => some none
  | some (.obj o) => (AccountAttributes.decode o).map some
  | some _ => none

/-- Modelled from the spec: the deserializer's reading of a resource. -/
def AccountData.decode (o : String → Option JVal) : Option AccountData := do
  let id ← getReqStr (o "id")
  let organisationID ← getReqStr (o "organisation_id")
  let type ← getReqStr (o "type")
  let version ← getOptInt (o "version")
  let attributes ← getOptAttributes (o "attributes")
  pure { id, organisationID, type, version, attributes }

/-- The request envelope as the default serializer renders it: the
resource placed under the "data" key (a nil resource is rendered as an
absent-or-null member). -/
def Envelope.encode (e : Envelope) : String → Option JVal := fun k =>
  if k = "data" then e.data.map (fun a => .obj a.encode) else none

/-- Decode the optional resource under the "data" key. -/
def getOptAccount : Option JVal → Option (Option AccountData)
  | none => some none
  | some .null => some none
  | some (.obj o) => (AccountData.decode o).map some
  | some _ => none

/-- The response-envelope deserializer over the modelled wire format. -/
def Envelope.decode (o : String → Option JVal) : Option Envelope := do
  let data ← getOptAccount (o "data")
  pure { data }

theorem getOptStr_encode (v : Option String) : getOptStr (v.map .str) = some v := by
  cases v <;> rfl

theorem getOptBool_encode (v : Option Bool) : getOptBool (v.map .bool) = some v := by
  cases v <;> rfl

theorem getOptInt_encode (v : Option Int) : getOptInt (v.map .num) = some v := by
  cases v <;> rfl

theorem decStrList_encode (l : List String) : decStrList (l.map .str) = some l := by
  induction l with
  | nil => rfl
  | cons s rest ih => simp [decStrList, ih]

theorem getOptStrList_encode (v : Option (List String)) :
    getOptStrList (v.map encStrList) = some v := by
  cases v with
  | none => rfl
  | some l => simp [getOptStrList, encStrList, decStrList_encode]

theorem attributes_decode_encode (a : AccountAttributes) :
    AccountAttributes.decode a.encode = some a := by
  unfold AccountAttributes.decode AccountAttributes.encode
  simp [getOptStr_encode, getOptBool_encode, getOptStrList_encode]

theorem getOptAttributes_encode (v : Option AccountAttributes) :
    getOptAttributes (v.map (fun attrs => .obj attrs.encode)) = some v := by
  cases v with
  | none => rfl
  | some attrs => simp [getOptAttributes, attributes_decode_encode]

theorem account_decode_encode (a : AccountData) :
    AccountData.decode a.encode = some a := by
  unfold AccountData.decode AccountData.encode
  simp [getReqStr, getOptInt_encode, getOptAttributes_encode]

theorem getOptAccount_encode (v : Option AccountData) :
    getOptAccount (v.map (fun a => .obj a.encode)) = some v := by
  cases v with
  | none => rfl
  | some a => simp [getOptAccount, account_decode_encode]

/-- C9: round-trip — serializing the create request envelope holding any
resource with the modelled default serializer and parsing those same
bytes through the response-envelope deserializer yields the original
resource, with optional fields that were absent staying absent rather
than becoming zero values. -/
theorem envelope_roundtrip (a : AccountData) :
    Envelope.decode (Envelope.encode { data := some a }) = some { data := some a } := by
  unfold Envelope.decode Envelope.encode
  simp [getOptAccount, account_decode_encode]
